import Mathlib

/-!
Verification development for the ZoozFX P2P monitor (arbitrage_bot.py).

The Python source is shallowly embedded below.  Python floats are modelled
as exact rationals; decimal literals from the source such as 0.0001 are the
corresponding exact rationals.  Python round on a half-integer value rounds
to the even neighbour, which pyRound reproduces.  Dictionaries keyed by
strings are modelled as association lists or as functions from String.
The outcome of the network send (send_telegram_alert) is passed in as an
explicit boolean, and wall-clock time as an explicit rational argument.
-/

namespace P2P

/-- One upstream advertisement, as extracted by find_first_ad and
fast_probe_ads: price, minSingleTransAmount and dynamicMaxSingleTransAmount
after safe_float conversion (absent fields become 0). -/
structure Ad where
  price : ℚ
  minLimit : ℚ
  maxLimit : ℚ
deriving DecidableEq, Repr

/-- The qualification test the code actually performs on a scanned
advertisement (arbitrage_bot.py line 424): min_lim <= page_limit_threshold.
The scanned max limit is extracted (line 416) but never tested. -/
def qualifiesCode (a : Ad) (thr : ℚ) : Bool := decide (a.minLimit ≤ thr)

/-- Modelled from the spec, for refinement comparison only (spec section 4.2):
an advertisement qualifies if minTransactionLimit <= minLimitThreshold AND
(maxLimitThreshold == 0 OR maxTransactionLimit >= maxLimitThreshold). -/
def specQualifies (a : Ad) (minThr maxThr : ℚ) : Bool :=
  decide (a.minLimit ≤ minThr) && (decide (maxThr = 0) || decide (maxThr ≤ a.maxLimit))

/-- fetch_page_raw for a fixed upstream listing state: page p with r rows
returns the p-th slice of the listing in upstream order. -/
def fetchPage (listing : List Ad) (page rows : ℕ) : List Ad :=
  (listing.drop ((page - 1) * rows)).take rows

/-- Page loop of find_first_ad: scan pages until the page budget (fuel) is
exhausted, a page comes back empty, or an advertisement qualifies; the first
qualifying advertisement in upstream order is returned. -/
def findFirstAdAux (listing : List Ad) (thr : ℚ) (rows : ℕ) : ℕ → ℕ → Option Ad
  | 0, _ => none
  | fuel + 1, page =>
    let items := fetchPage listing page rows
    if items = [] then none
    else
      match items.find? (fun a => qualifiesCode a thr) with
      | some a => some a
      | none => findFirstAdAux listing thr rows fuel (page + 1)

/-- find_first_ad(fiat, pay_type, trade_type, page_limit_threshold, rows):
pages 1 .. MAX_SCAN_PAGES over the listing for that (fiat, pay_type, side). -/
def findFirstAd (listing : List Ad) (thr : ℚ) (maxPages rows : ℕ) : Option Ad :=
  findFirstAdAux listing thr rows maxPages 1

/-- fast_probe_ads: fetch page 1 with FAST_PROBE_ROWS rows on the BUY and the
SELL side, take the first advertisement of each; if both min limits fit the
threshold, the seller price is positive and the spread clears the global
profit threshold, return the pair, else nothing. -/
def fastProbeAds (buyListing sellListing : List Ad) (thr profitThr : ℚ)
    (probeRows : ℕ) : Option (Ad × Ad) :=
  match buyListing.take probeRows, sellListing.take probeRows with
  | b :: _, s :: _ =>
    if b.minLimit ≤ thr ∧ s.minLimit ≤ thr ∧ 0 < s.price then
      if profitThr ≤ (b.price / s.price - 1) * 100 then some (b, s) else none
    else none
  | _, _ => none

/-- Python max on two rationals. -/
def pyMax (a b : ℚ) : ℚ := if a < b then b else a

/-- Python min on two rationals. -/
def pyMin (a b : ℚ) : ℚ := if b < a then b else a

/-- MIN_INTERVAL_BASE = max(0.0, 60.0 / max(1, REQUESTS_PER_MINUTE)). -/
def minIntervalBase (rpm : ℕ) : ℚ := pyMax 0 (60 / ((Nat.max 1 rpm : ℕ) : ℚ))

/-- Multiplier applied by rate_limit_wait: 1.0 while the consecutive-429
count is at most 2, otherwise min(64, 2 ^ (count - 2)). -/
def multiplier429 (c429 : ℕ) : ℚ :=
  if c429 ≤ 2 then 1 else pyMin 64 ((2 : ℚ) ^ (c429 - 2))

/-- The deterministic effective minimum inter-request interval enforced by
rate_limit_wait (the added jitter is a nonnegative random term, excluded). -/
def effectiveMinInterval (rpm c429 : ℕ) : ℚ := minIntervalBase rpm * multiplier429 c429

/-- Update of the shared consecutive-429 counter in fetch_page_raw: a 429
response increments it, any other successful response resets it to 0. -/
def counterAfter (c : ℕ) (throttled : Bool) : ℕ := if throttled then c + 1 else 0

/-- Python str.upper for the ASCII keys the code handles. -/
def strUpper (s : String) : String := ⟨s.data.map Char.toUpper⟩

/-- get_profit_threshold_for_pair: exact (CUR, METHOD) key, then (CUR, ALL),
then the global default; an empty currency short-circuits to the default. -/
def getProfitThresholdForPair (cur method : String)
    (profitMap : List ((String × String) × ℚ)) (defaultThr : ℚ) : ℚ :=
  if cur = "" then defaultThr
  else
    match List.lookup (strUpper cur, strUpper method) profitMap with
    | some v => v
    | none =>
      match List.lookup (strUpper cur, "ALL") profitMap with
      | some v => v
      | none => defaultThr

/-- Modelled from the spec, for refinement comparison only (spec section 4.3):
precedence chain exact (currency, method) override, then currency-only
override, then method-only override, then the global default.  A method-only
override is encoded with the wildcard currency ALL. -/
def resolveProfitSpec (cur method : String)
    (profitMap : List ((String × String) × ℚ)) (defaultThr : ℚ) : ℚ :=
  match List.lookup (strUpper cur, strUpper method) profitMap with
  | some v => v
  | none =>
    match List.lookup (strUpper cur, "ALL") profitMap with
    | some v => v
    | none =>
      match List.lookup ("ALL", strUpper method) profitMap with
      | some v => v
      | none => defaultThr

/-- Message kinds recorded in last_message_type. -/
inductive MsgType
  | start
  | update
  | ended
deriving DecidableEq, Repr

/-- Quantized dedup signature: the three bins of compute_signature. -/
abbrev Sig := ℤ × ℤ × ℤ

/-- What a single process_pair evaluation did about notification dispatch:
nothing, or one send_telegram_alert call of the given kind with its result. -/
inductive DispatchOutcome
  | noAttempt
  | attempt (t : MsgType) (ok : Bool)
deriving DecidableEq, Repr

/-- Python round: round half to even, otherwise to the nearest integer. -/
def pyRound (q : ℚ) : ℤ :=
  if q - (⌊q⌋ : ℚ) = 1 / 2 then (if ⌊q⌋ % 2 = 0 then ⌊q⌋ else ⌊q⌋ + 1)
  else round q

/-- compute_signature(spread, buy, sell, tol): bin each value by the
tolerance (falling back to 1e-8 for a nonpositive tolerance).  In the
rational model the conversions never raise, so no bin is ever missing. -/
def computeSignature (spread buy sell tol : ℚ) : Sig :=
  let t := if tol ≤ 0 then 1 / 100000000 else tol
  (pyRound (spread / t), pyRound (buy / t), pyRound (sell / t))

/-- values_close(a, b, tol) with rel_tol = 0: a None argument is never
close; otherwise abs(a - b) <= max(0, tol). -/
def valuesClose (a : Option ℚ) (b tol : ℚ) : Bool :=
  match a with
  | none => false
  | some x => decide (|x - b| ≤ pyMax 0 tol)

/-- relative_change_percent(old, new) >= pct for a present old value:
a zero old value yields infinity, hence true. -/
def relChangeGE (o new pct : ℚ) : Bool :=
  if o = 0 then true else decide (pct ≤ |(new - o) / o| * 100)

/-- The configuration constants consulted by the state machine, with the
source defaults: ALERT_VALUE_TOLERANCE = 0.0001, ALERT_DEDUP_MODE = exact,
ALERT_UPDATE_ON_ANY_CHANGE = 1, ALERT_UPDATE_MIN_DELTA_PERCENT = 0.01,
ALERT_UPDATE_PRICE_CHANGE_PERCENT = 0.05, ALERT_TTL_SECONDS = 0. -/
structure Config where
  tol : ℚ
  dedupExact : Bool
  anyChange : Bool
  minDelta : ℚ
  priceChangePct : ℚ
  ttl : ℚ
deriving DecidableEq, Repr

/-- The source defaults of the configuration constants. -/
def defaultCfg : Config :=
  { tol := 1 / 10000
    dedupExact := true
    anyChange := true
    minDelta := 1 / 100
    priceChangePct := 1 / 20
    ttl := 0 }

/-- Per-pair state record held in active_states. -/
structure PairState where
  active : Bool
  lastSpread : Option ℚ
  lastBuy : Option ℚ
  lastSell : Option ℚ
  since : Option ℚ
  lastSentSpread : Option ℚ
  lastSentBuy : Option ℚ
  lastSentSell : Option ℚ
  lastSentTime : Option ℚ
  lastMessageType : Option MsgType
  lastSentSignature : Option Sig
deriving DecidableEq, Repr

/-- The record get_active_state returns for a pair never seen before. -/
def initState : PairState :=
  { active := false
    lastSpread := none
    lastBuy := none
    lastSell := none
    since := none
    lastSentSpread := none
    lastSentBuy := none
    lastSentSell := none
    lastSentTime := none
    lastMessageType := none
    lastSentSignature := none }

/-- set_active_state_snapshot: each argument updates its field only when
present; mark_sent additionally copies the present observation arguments
into the sent snapshot, stamps the sent time and records message type and
signature when given. -/
def setActiveStateSnapshot (rec : PairState) (act : Option Bool)
    (lastSpread lastBuy lastSell : Option ℚ) (markSent : Bool)
    (sig : Option Sig) (msgType : Option MsgType) (now : ℚ) : PairState :=
  { active := act.getD rec.active
    since :=
      match act with
      | some a => if a then some now else none
      | none => rec.since
    lastSpread := match lastSpread with | some v => some v | none => rec.lastSpread
    lastBuy := match lastBuy with | some v => some v | none => rec.lastBuy
    lastSell := match lastSell with | some v => some v | none => rec.lastSell
    lastSentSpread :=
      if markSent then (match lastSpread with | some v => some v | none => rec.lastSentSpread)
      else rec.lastSentSpread
    lastSentBuy :=
      if markSent then (match lastBuy with | some v => some v | none => rec.lastSentBuy)
      else rec.lastSentBuy
    lastSentSell :=
      if markSent then (match lastSell with | some v => some v | none => rec.lastSentSell)
      else rec.lastSentSell
    lastSentTime := if markSent then some now else rec.lastSentTime
    lastMessageType :=
      if markSent then (match msgType with | some t => some t | none => rec.lastMessageType)
      else rec.lastMessageType
    lastSentSignature :=
      if markSent then (match sig with | some s => some s | none => rec.lastSentSignature)
      else rec.lastSentSignature }

/-- The signature short-circuit at the top of should_send_update: active
exactly when the dedup mode is exact, a signature was passed and it equals a
present previously sent signature. -/
def sigSuppressed (cfg : Config) (st : PairState) (sig : Option Sig) : Bool :=
  cfg.dedupExact &&
    (match sig, st.lastSentSignature with
     | some s, some ls => decide (ls = s)
     | _, _ => false)

/-- Body of should_send_update after the signature check: initial send when
nothing was ever sent; any-change mode compares each value against the sent
snapshot within the tolerance; threshold mode uses the minimum spread delta
and the relative price change percentages. -/
def shouldSendUpdateCore (cfg : Config) (st : PairState)
    (newSpread newBuy newSell : ℚ) : Bool :=
  if st.lastSentSpread = none ∧ st.lastSentBuy = none ∧ st.lastSentSell = none then true
  else if cfg.anyChange then
    (!valuesClose st.lastSentSpread newSpread cfg.tol) ||
      (!valuesClose st.lastSentBuy newBuy cfg.tol) ||
        (!valuesClose st.lastSentSell newSell cfg.tol)
  else
    let spreadDiff :=
      match st.lastSentSpread with
      | none => |newSpread|
      | some l => |newSpread - l|
    if cfg.minDelta ≤ spreadDiff then true
    else if (match st.lastSentBuy with
             | some o => relChangeGE o newBuy cfg.priceChangePct
             | none => false) then true
    else
      match st.lastSentSell with
      | some o => relChangeGE o newSell cfg.priceChangePct
      | none => false

/-- should_send_update(pair_state, new_spread, new_buy, new_sell, signature). -/
def shouldSendUpdate (cfg : Config) (st : PairState)
    (newSpread newBuy newSell : ℚ) (sig : Option Sig) : Bool :=
  if sigSuppressed cfg st sig then false
  else shouldSendUpdateCore cfg st newSpread newBuy newSell

/-- can_send_start: true when nothing was ever sent or the TTL is disabled,
otherwise when the TTL has elapsed since the last send. -/
def canSendStart (st : PairState) (now ttl : ℚ) : Bool :=
  match st.lastSentTime with
  | none => true
  | some t => if ttl ≤ 0 then true else decide (ttl ≤ now - t)

/-- The per-observation core of process_pair (lines 945 to 1007): given the
computed spread, the buy price (SELL page) and sell price (BUY page), the
resolved profit threshold, and the result the notification send would have,
produce the committed pair state and what was dispatched. -/
def processObservation (cfg : Config) (st : PairState)
    (spread buy sell thr : ℚ) (sendOk : Bool) (now : ℚ) :
    PairState × DispatchOutcome :=
  if thr ≤ spread then
    if st.active = false then
      if shouldSendUpdate cfg st spread buy sell (some (computeSignature spread buy sell cfg.tol)) then
        if canSendStart st now cfg.ttl then
          if sendOk then
            (setActiveStateSnapshot st (some true) (some spread) (some buy) (some sell)
              true (some (computeSignature spread buy sell cfg.tol)) (some MsgType.start) now, DispatchOutcome.attempt MsgType.start true)
          else (st, DispatchOutcome.attempt MsgType.start false)
        else
          (setActiveStateSnapshot st (some true) (some spread) (some buy) (some sell)
            false none none now, DispatchOutcome.noAttempt)
      else
        (setActiveStateSnapshot st (some true) (some spread) (some buy) (some sell)
          false none none now, DispatchOutcome.noAttempt)
    else
      if shouldSendUpdate cfg st spread buy sell (some (computeSignature spread buy sell cfg.tol)) then
        if sendOk then
          (setActiveStateSnapshot st (some true) (some spread) (some buy) (some sell)
            true (some (computeSignature spread buy sell cfg.tol)) (some MsgType.update) now, DispatchOutcome.attempt MsgType.update true)
        else (st, DispatchOutcome.attempt MsgType.update false)
      else
        (setActiveStateSnapshot st (some true) (some spread) (some buy) (some sell)
          false none none now, DispatchOutcome.noAttempt)
  else
    if st.active then
      if shouldSendUpdate cfg st spread buy sell (some (computeSignature spread buy sell cfg.tol)) then
        if sendOk then
          (setActiveStateSnapshot st (some false) (some spread) (some buy) (some sell)
            true (some (computeSignature spread buy sell cfg.tol)) (some MsgType.ended) now, DispatchOutcome.attempt MsgType.ended true)
        else (st, DispatchOutcome.attempt MsgType.ended false)
      else
        (setActiveStateSnapshot st (some false) (some spread) (some buy) (some sell)
          false none none now, DispatchOutcome.noAttempt)
    else
      (setActiveStateSnapshot st (some false) (some spread) (some buy) (some sell)
        false none none now, DispatchOutcome.noAttempt)

/-- Spread computation of process_pair (lines 931 to 938) followed by the
state machine: sell price is the BUY page advertisement price, buy price the
SELL page one; a zero divisor raises ZeroDivisionError, which is caught and
leaves the pair untouched for the cycle. -/
def processAds (cfg : Config) (st : PairState) (buyerAd sellerAd : Ad)
    (thr : ℚ) (sendOk : Bool) (now : ℚ) : PairState × DispatchOutcome :=
  if sellerAd.price = 0 then (st, DispatchOutcome.noAttempt)
  else
    processObservation cfg st ((buyerAd.price / sellerAd.price - 1) * 100)
      sellerAd.price buyerAd.price thr sendOk now

/-- The state key used by process_pair: currency and the individual payment
method variant string joined by a bar. -/
def pairKey (currency variant : String) : String := currency ++ "|" ++ variant

/-- Whether a variant yields both advertisements and a computable spread. -/
def variantSucceeds (fetch : String → Option Ad × Option Ad) (v : String) : Bool :=
  match fetch v with
  | (some _, some s) => if s.price = 0 then false else true
  | _ => false

/-- The variant loop of process_pair: try the alias variants in listed
order; a variant missing an advertisement or hitting a zero divisor is
passed over with its state untouched; the first variant with both
advertisements and a computable spread runs the state machine under its own
key and the loop breaks.  Returns the updated state map, the list of
variants examined this cycle, and the selected variant. -/
def processPairVariants (cfg : Config) (fetch : String → Option Ad × Option Ad)
    (currency : String) (thr : ℚ) (sendOk : Bool) (now : ℚ)
    (states : String → PairState) :
    List String → (String → PairState) × List String × Option String
  | [] => (states, [], none)
  | v :: rest =>
    match fetch v with
    | (some b, some s) =>
      if s.price = 0 then
        let r := processPairVariants cfg fetch currency thr sendOk now states rest
        (r.1, v :: r.2.1, r.2.2)
      else
        let key := pairKey currency v
        let newSt := (processAds cfg (states key) b s thr sendOk now).1
        (fun k => if k = key then newSt else states k, [v], some v)
    | _ =>
      let r := processPairVariants cfg fetch currency thr sendOk now states rest
      (r.1, v :: r.2.1, r.2.2)


/-! ## Concrete example data used by counterexamples and witnesses -/

/-- Example advertisement for claim C1: minimum limit 0, maximum limit 5. -/
def adC1 : Ad := ⟨1, 0, 5⟩

/-- Pair state after one committed observation of spread 1, used by the
claim C3 counterexample. -/
def stC3 : PairState := (processObservation defaultCfg initState 1 100 105 3 true 0).1

/-- State after the claim C4 trace step 1: start sent at spread 150001/50000
(just above threshold 3), prices 100 and 105, tolerance 1/10000. -/
def st1C4 : PairState :=
  { active := true, lastSpread := some (150001 / 50000), lastBuy := some 100,
    lastSell := some 105, since := some 0, lastSentSpread := some (150001 / 50000),
    lastSentBuy := some 100, lastSentSell := some 105, lastSentTime := some 0,
    lastMessageType := some MsgType.start, lastSentSignature := some (30000, 1000000, 1050000) }

/-- State after the claim C4 trace step 2: spread dipped to 149999/50000,
below threshold but inside the same signature bin, so the end was suppressed
and the pair went inactive with the sent snapshot untouched. -/
def st2C4 : PairState :=
  { st1C4 with active := false, since := none, lastSpread := some (149999 / 50000) }

/-- State after the claim C4 trace step 3: spread back at 150001/50000, the
start was suppressed as a signature duplicate, the pair was marked active
without any dispatch. -/
def st3C4 : PairState :=
  { st1C4 with since := some 2 }

/-- An active pair state with an empty sent snapshot, for the claim C4
witness. -/
def stActiveW : PairState := { initState with active := true }

/-- Profit override map for claim C5: one method-only entry. -/
def profitMapC5 : List ((String × String) × ℚ) := [(("ALL", "NETELLER"), 7)]

/-- Pair state whose previously sent signature matches the bins of
(5, 100, 105) at tolerance 1/10000 while its sent spread differs, for
claim C7. -/
def stSigC7 : PairState :=
  { initState with
    lastSentSpread := some 1
    lastSentSignature := some (computeSignature 5 100 105 (1 / 10000)) }

/-- BUY side advertisement for the claim C8 witness. -/
def adBuyC8 : Ad := ⟨105, 50, 0⟩

/-- SELL side advertisement for the claim C8 witness. -/
def adSellC8 : Ad := ⟨100, 50, 0⟩

/-- BUY side advertisement for the claim C9 witness. -/
def adBuyC9 : Ad := ⟨105, 10, 0⟩

/-- SELL side advertisement with zero price for the claim C9 witness. -/
def adSellZero : Ad := ⟨0, 10, 0⟩

/-- BUY side advertisement for the claim C10 witness. -/
def adBuyC10 : Ad := ⟨105, 50, 0⟩

/-- SELL side advertisement for the claim C10 witness. -/
def adSellC10 : Ad := ⟨100, 50, 0⟩

/-- Upstream responses for the claim C10 witness: only the variant Skrill
yields both advertisements. -/
def fetchC10 : String → Option Ad × Option Ad := fun v =>
  if v = "Skrill" then (some adBuyC10, some adSellC10) else (none, none)

/-! ## Theorems -/

theorem findFirstAdAux_qualifies (L : List Ad) (thr : ℚ) (rows : ℕ) :
    ∀ fuel page a, findFirstAdAux L thr rows fuel page = some a → qualifiesCode a thr = true := by
  intro fuel
  induction fuel with
  | zero => intro page a h; simp [findFirstAdAux] at h
  | succ n ih =>
    intro page a h
    by_cases hi : fetchPage L page rows = []
    · simp [findFirstAdAux, hi] at h
    · simp only [findFirstAdAux, hi, if_false] at h
      cases hf : (fetchPage L page rows).find? (fun x => qualifiesCode x thr) with
      | some b =>
        rw [hf] at h
        cases h
        have hq := List.find?_some hf
        simpa using hq
      | none =>
        rw [hf] at h
        exact ih (page + 1) a h

/-- Claim C1 counterexample: the scanner accepts the advertisement with
maximum limit 5 under minLimitThreshold 100 even though the claimed rule
with maxLimitThreshold 10 rejects it; the code has no max-limit check. -/
theorem find_first_ad_no_max_check_cex :
    findFirstAd [adC1] 100 8 20 = some adC1 ∧ specQualifies adC1 100 10 = false := by
  decide

/-- Claim C1 (amended): an advertisement examined by the scanner qualifies
iff its minimum transaction limit is at most minLimitThreshold; the scanner
takes no maxLimitThreshold and performs no max-limit check, so its rule is
the spec rule specialized at maxLimitThreshold = 0, and every advertisement
it returns satisfies that rule. -/
theorem find_first_ad_qualification :
    (∀ (a : Ad) (minThr : ℚ), qualifiesCode a minThr = specQualifies a minThr 0) ∧
    (∀ (L : List Ad) (thr : ℚ) (p r : ℕ) (a : Ad),
      findFirstAd L thr p r = some a → qualifiesCode a thr = true) := by
  constructor
  · intro a minThr
    simp [qualifiesCode, specQualifies]
  · intro L thr p r a h
    exact findFirstAdAux_qualifies L thr r p 1 a h

/-- Witness for claim C1 at a concrete input. -/
theorem find_first_ad_qualification_witness : qualifiesCode adC1 100 = true :=
  find_first_ad_qualification.2 [adC1] 100 8 20 adC1 (by decide)

/-- Claim C2 counterexample: from the fresh state, an evaluation observes
spread 5 at threshold 3 (a successful evaluation), the start dispatch fails,
and the committed state is the unchanged fresh state with active still
false, so active does not track the most recent successful evaluation. -/
theorem active_iff_cex :
    processObservation defaultCfg initState 5 100 105 3 false 0 =
      (initState, DispatchOutcome.attempt MsgType.start false) ∧
    initState.active = false ∧ (3 : ℚ) ≤ 5 := by
  decide

/-- Claim C2 (amended): after any evaluation that is not a failed dispatch
attempt, active is true iff the observed spread was at least the resolved
profit threshold; an evaluation whose dispatch fails commits nothing, so
active keeps its previous value. -/
theorem active_iff_spread_at_threshold (cfg : Config) (st : PairState)
    (spread buy sell thr : ℚ) (sendOk : Bool) (now : ℚ)
    (h : ∀ t, (processObservation cfg st spread buy sell thr sendOk now).2 ≠
      DispatchOutcome.attempt t false) :
    (processObservation cfg st spread buy sell thr sendOk now).1.active = true ↔ thr ≤ spread := by
  revert h
  unfold processObservation
  split_ifs with h1 h2 h3 h4 h5 h6 h7 h8 h9 h10 <;> intro h <;>
    first
      | exact absurd rfl (h _)
      | simp [setActiveStateSnapshot, h1]

/-- Witness for claim C2 at a concrete input. -/
theorem active_iff_witness :
    (processObservation defaultCfg initState 5 100 105 3 true 0).1.active = true ↔ (3 : ℚ) ≤ 5 :=
  active_iff_spread_at_threshold defaultCfg initState 5 100 105 3 true 0
    (by intro t; cases t <;> decide)

/-- Claim C3 counterexample: with last observed spread 1 on record, a later
evaluation observes spread 5, attempts a start dispatch and the dispatch
fails; the whole state is returned unchanged, so the observed snapshot still
reads 1 rather than being updated to 5 as the claim requires. -/
theorem dispatch_frame_cex :
    processObservation defaultCfg stC3 5 100 105 3 false 1 =
      (stC3, DispatchOutcome.attempt MsgType.start false) ∧
    stC3.lastSpread = some 1 ∧ ¬stC3.lastSpread = some 5 := by
  decide

/-- Claim C3 (amended): on a successful dispatch, the sent snapshot, the
sent timestamp, the message type, the sent signature and the observed
snapshot are all committed together; on a failed dispatch the pair state is
returned completely unchanged, so the observed snapshot is not updated
either. -/
theorem dispatch_frame (cfg : Config) (st : PairState) (spread buy sell thr : ℚ)
    (sendOk : Bool) (now : ℚ) (t : MsgType) :
    ((processObservation cfg st spread buy sell thr sendOk now).2 =
        DispatchOutcome.attempt t true →
      ((processObservation cfg st spread buy sell thr sendOk now).1.lastSentSpread = some spread ∧
        (processObservation cfg st spread buy sell thr sendOk now).1.lastSentBuy = some buy ∧
        (processObservation cfg st spread buy sell thr sendOk now).1.lastSentSell = some sell ∧
        (processObservation cfg st spread buy sell thr sendOk now).1.lastSentTime = some now ∧
        (processObservation cfg st spread buy sell thr sendOk now).1.lastMessageType = some t ∧
        (processObservation cfg st spread buy sell thr sendOk now).1.lastSentSignature =
          some (computeSignature spread buy sell cfg.tol) ∧
        (processObservation cfg st spread buy sell thr sendOk now).1.lastSpread = some spread ∧
        (processObservation cfg st spread buy sell thr sendOk now).1.lastBuy = some buy ∧
        (processObservation cfg st spread buy sell thr sendOk now).1.lastSell = some sell)) ∧
    ((processObservation cfg st spread buy sell thr sendOk now).2 =
        DispatchOutcome.attempt t false →
      (processObservation cfg st spread buy sell thr sendOk now).1 = st) := by
  unfold processObservation
  split_ifs <;> constructor <;> intro h <;> cases h <;>
    first
      | rfl
      | simp [setActiveStateSnapshot]

/-- Witness for claim C3 at concrete inputs: one successful dispatch that
stamps the sent time, and one failed dispatch that leaves the state as it
was. -/
theorem dispatch_frame_witness :
    (processObservation defaultCfg initState 5 100 105 3 true 0).1.lastSentTime = some 0 ∧
    (processObservation defaultCfg initState 5 100 105 3 false 0).1 = initState :=
  ⟨((dispatch_frame defaultCfg initState 5 100 105 3 true 0 MsgType.start).1 (by decide)).2.2.2.1,
    (dispatch_frame defaultCfg initState 5 100 105 3 false 0 MsgType.start).2 (by decide)⟩

/-- Claim C4 counterexample: a start is sent at spread 150001/50000; the
spread dips to 149999/50000 (same signature bin), the end is suppressed and
the pair goes inactive; the spread returns to 150001/50000 and this new
activation begins with its start suppressed as a signature duplicate; the
spread then moves to 10 and an update is dispatched — an activation with an
update dispatch but no start dispatch. -/
theorem start_before_update_cex :
    processObservation defaultCfg initState (150001 / 50000) 100 105 3 true 0 =
      (st1C4, DispatchOutcome.attempt MsgType.start true) ∧
    processObservation defaultCfg st1C4 (149999 / 50000) 100 105 3 true 1 =
      (st2C4, DispatchOutcome.noAttempt) ∧
    st2C4.active = false ∧
    (3 : ℚ) ≤ 150001 / 50000 ∧
    processObservation defaultCfg st2C4 (150001 / 50000) 100 105 3 true 2 =
      (st3C4, DispatchOutcome.noAttempt) ∧
    st3C4.active = true ∧
    (processObservation defaultCfg st3C4 10 100 105 3 true 3).2 =
      DispatchOutcome.attempt MsgType.update true := by
  refine ⟨?_, ?_, rfl, by norm_num, ?_, rfl, ?_⟩
  · norm_num [processObservation, shouldSendUpdate, sigSuppressed, shouldSendUpdateCore,
      canSendStart, setActiveStateSnapshot, computeSignature, pyRound, valuesClose,
      defaultCfg, initState, st1C4, round_eq]
  · norm_num [processObservation, shouldSendUpdate, sigSuppressed, shouldSendUpdateCore,
      canSendStart, setActiveStateSnapshot, computeSignature, pyRound, valuesClose,
      defaultCfg, initState, st1C4, st2C4, round_eq]
  · norm_num [processObservation, shouldSendUpdate, sigSuppressed, shouldSendUpdateCore,
      canSendStart, setActiveStateSnapshot, computeSignature, pyRound, valuesClose,
      defaultCfg, initState, st1C4, st2C4, st3C4, round_eq]
  · have habs : |(349999 : ℚ) / 50000| = 349999 / 50000 := abs_of_pos (by norm_num)
    norm_num [processObservation, shouldSendUpdate, sigSuppressed, shouldSendUpdateCore,
      canSendStart, setActiveStateSnapshot, computeSignature, pyRound, valuesClose,
      pyMax, defaultCfg, initState, st1C4, st3C4, round_eq, habs]

/-- Claim C4 (amended): a start dispatch is only ever attempted from the
Inactive state and an update dispatch only from the Active state, so an
activation carries at most one start and any start precedes every update of
that activation; however an activation whose start was suppressed by the
signature dedup or the TTL dispatches no start at all, and updates may then
follow without one. -/
theorem start_update_discipline (cfg : Config) (st : PairState)
    (spread buy sell thr : ℚ) (sendOk : Bool) (now : ℚ) (res : Bool) :
    ((processObservation cfg st spread buy sell thr sendOk now).2 =
        DispatchOutcome.attempt MsgType.start res → st.active = false) ∧
    ((processObservation cfg st spread buy sell thr sendOk now).2 =
        DispatchOutcome.attempt MsgType.update res → st.active = true) := by
  unfold processObservation
  split_ifs <;> constructor <;> intro h <;> cases h <;> simp_all

/-- Witness for claim C4 at concrete inputs: a start attempt from an
inactive state and an update attempt from an active state. -/
theorem start_update_discipline_witness :
    initState.active = false ∧ stActiveW.active = true :=
  ⟨(start_update_discipline defaultCfg initState 5 100 105 3 true 0 true).1 (by decide),
    (start_update_discipline defaultCfg stActiveW 10 100 105 3 true 1 true).2 (by decide)⟩

/-- Claim C5 counterexample: a method-only override (wildcard currency ALL
with method NETELLER, value 7) is ignored by the code resolver for the pair
(USD, NETELLER), which falls through to the global default 3, while the spec
precedence chain resolves it to 7. -/
theorem profit_threshold_no_method_only_cex :
    getProfitThresholdForPair "USD" "NETELLER" profitMapC5 3 = 3 ∧
    resolveProfitSpec "USD" "NETELLER" profitMapC5 3 = 7 := by
  decide

/-- Claim C5 (amended): the resolved profit threshold follows the chain
exact (currency, method) override, then currency-only (CUR, ALL) override,
then the global default; there is no method-only step, so the code resolver
agrees with the spec chain exactly when no method-only override applies. -/
theorem profit_threshold_precedence (cur method : String)
    (m : List ((String × String) × ℚ)) (d : ℚ) (hcur : ¬cur = "")
    (hno : List.lookup ("ALL", strUpper method) m = none) :
    getProfitThresholdForPair cur method m d = resolveProfitSpec cur method m d := by
  cases h1 : List.lookup (strUpper cur, strUpper method) m with
  | some v => simp [getProfitThresholdForPair, resolveProfitSpec, hcur, h1]
  | none =>
    cases h2 : List.lookup (strUpper cur, "ALL") m with
    | some v => simp [getProfitThresholdForPair, resolveProfitSpec, hcur, h1, h2]
    | none => simp [getProfitThresholdForPair, resolveProfitSpec, hcur, h1, h2, hno]

/-- Witness for claim C5 at a concrete input. -/
theorem profit_threshold_precedence_witness :
    getProfitThresholdForPair "GBP" "SKRILL" profitMapC5 3 =
      resolveProfitSpec "GBP" "SKRILL" profitMapC5 3 :=
  profit_threshold_precedence "GBP" "SKRILL" profitMapC5 3 (by decide) (by decide)

/-- Claim C6 counterexample: one throttling signal takes the shared counter
from 0 to 1, and at counter 1 the effective minimum inter-request interval
equals the unthrottled baseline instead of strictly exceeding it. -/
theorem throttle_interval_cex :
    counterAfter 0 true = 1 ∧
    effectiveMinInterval 20 1 = minIntervalBase 20 ∧
    ¬minIntervalBase 20 < effectiveMinInterval 20 1 := by
  refine ⟨rfl, ?_, ?_⟩
  · unfold effectiveMinInterval multiplier429
    rw [if_pos (by norm_num), mul_one]
  · unfold effectiveMinInterval multiplier429
    rw [if_pos (by norm_num), mul_one]
    exact lt_irrefl _

/-- Claim C6 (amended): the effective minimum inter-request interval is
strictly greater than the unthrottled baseline 60 / requestsPerMinute once
the consecutive-429 counter reaches 3 (multiplier min(64, 2 ^ (c - 2))); at
counter values up to 2 it stays at the baseline; and after one non-throttled
success, which resets the counter to 0, it returns to the baseline. -/
theorem throttle_interval_amended (rpm c : ℕ) :
    (3 ≤ c → minIntervalBase rpm < effectiveMinInterval rpm c) ∧
    (c ≤ 2 → effectiveMinInterval rpm c = minIntervalBase rpm) ∧
    effectiveMinInterval rpm (counterAfter c false) = minIntervalBase rpm := by
  have hbase : 0 < minIntervalBase rpm := by
    have h0 : (0 : ℕ) < Nat.max 1 rpm := lt_of_lt_of_le Nat.one_pos (Nat.le_max_left 1 rpm)
    have h1 : (0 : ℚ) < ((Nat.max 1 rpm : ℕ) : ℚ) := by exact_mod_cast h0
    have h2 : (0 : ℚ) < 60 / ((Nat.max 1 rpm : ℕ) : ℚ) := div_pos (by norm_num) h1
    unfold minIntervalBase pyMax
    rw [if_pos h2]
    exact h2
  refine ⟨?_, ?_, ?_⟩
  · intro h3
    have hmult : (2 : ℚ) ≤ multiplier429 c := by
      unfold multiplier429 pyMin
      rw [if_neg (by omega)]
      have h2c : (2 : ℚ) ≤ 2 ^ (c - 2) := by
        calc (2 : ℚ) = 2 ^ 1 := (pow_one 2).symm
          _ ≤ 2 ^ (c - 2) := pow_le_pow_right₀ (by norm_num) (by omega)
      split
      · exact h2c
      · norm_num
    calc minIntervalBase rpm = minIntervalBase rpm * 1 := (mul_one _).symm
      _ < minIntervalBase rpm * multiplier429 c :=
        mul_lt_mul_of_pos_left (by linarith) hbase
      _ = effectiveMinInterval rpm c := rfl
  · intro h3
    unfold effectiveMinInterval multiplier429
    rw [if_pos h3, mul_one]
  · simp [counterAfter, effectiveMinInterval, multiplier429]

/-- Witness for claim C6 at concrete inputs. -/
theorem throttle_interval_amended_witness :
    minIntervalBase 20 < effectiveMinInterval 20 3 ∧
    effectiveMinInterval 20 (counterAfter 5 false) = minIntervalBase 20 :=
  ⟨(throttle_interval_amended 20 3).1 (by decide), (throttle_interval_amended 20 5).2.2⟩

theorem shouldSendUpdate_sig_match (cfg : Config) (st : PairState) (s b l : ℚ) (σ : Sig)
    (hmode : cfg.dedupExact = true) (hsig : st.lastSentSignature = some σ) :
    shouldSendUpdate cfg st s b l (some σ) = false := by
  simp [shouldSendUpdate, sigSuppressed, hmode, hsig]

/-- Claim C7: under the exact dedup mode, when the pair has a previously
sent signature, (1) a current observation whose quantized signature equals
it is suppressed before the significance rule, with no dispatch of any
kind; (2) every dispatch that is attempted carries a signature different
from the previously sent one; and (3) a successful dispatch records its own
signature as the new sent signature — hence no two consecutive dispatches
for a pair carry an identical quantized signature. -/
theorem signature_dedup (cfg : Config) (st : PairState) (spread buy sell thr : ℚ)
    (sendOk : Bool) (now : ℚ) (σ : Sig)
    (hmode : cfg.dedupExact = true) (hsig : st.lastSentSignature = some σ) :
    (computeSignature spread buy sell cfg.tol = σ →
      (processObservation cfg st spread buy sell thr sendOk now).2 =
        DispatchOutcome.noAttempt) ∧
    (∀ t res, (processObservation cfg st spread buy sell thr sendOk now).2 =
        DispatchOutcome.attempt t res → ¬computeSignature spread buy sell cfg.tol = σ) ∧
    (∀ t, (processObservation cfg st spread buy sell thr sendOk now).2 =
        DispatchOutcome.attempt t true →
      (processObservation cfg st spread buy sell thr sendOk now).1.lastSentSignature =
        some (computeSignature spread buy sell cfg.tol)) := by
  have hconj1 : computeSignature spread buy sell cfg.tol = σ →
      (processObservation cfg st spread buy sell thr sendOk now).2 =
        DispatchOutcome.noAttempt := by
    intro hEq
    have hss : shouldSendUpdate cfg st spread buy sell
        (some (computeSignature spread buy sell cfg.tol)) = false := by
      rw [hEq]
      exact shouldSendUpdate_sig_match cfg st spread buy sell σ hmode hsig
    unfold processObservation
    split_ifs <;> simp_all
  refine ⟨hconj1, ?_, ?_⟩
  · intro t res hAtt hEq
    have hno := hconj1 hEq
    rw [hAtt] at hno
    simp at hno
  · intro t hAtt
    unfold processObservation at hAtt ⊢
    split_ifs at hAtt ⊢ <;> cases hAtt <;> simp [setActiveStateSnapshot]

/-- Witness for claim C7 at a concrete input: the signature of (5, 100, 105)
matches the previously sent signature while the sent spread differs, and the
dispatch is suppressed. -/
theorem signature_dedup_witness :
    (processObservation defaultCfg stSigC7 5 100 105 3 true 0).2 =
      DispatchOutcome.noAttempt :=
  (signature_dedup defaultCfg stSigC7 5 100 105 3 true 0
      (computeSignature 5 100 105 (1 / 10000)) rfl rfl).1 rfl

theorem findFirstAd_head (b : Ad) (bt : List Ad) (thr : ℚ) (mp rows : ℕ)
    (hmp : 1 ≤ mp) (hr : 1 ≤ rows) (hq : qualifiesCode b thr = true) :
    findFirstAd (b :: bt) thr mp rows = some b := by
  obtain ⟨m, rfl⟩ := Nat.exists_eq_add_of_le hmp
  obtain ⟨r, rfl⟩ := Nat.exists_eq_add_of_le hr
  rw [Nat.add_comm 1 m, Nat.add_comm 1 r]
  simp [findFirstAd, findFirstAdAux, fetchPage, List.find?_cons, hq]

/-- Claim C8: whenever the fast probe returns a buyer and a seller
advertisement and short-circuits the full scan, the full paginated scan on
the same listings (any positive page budget and page size) returns exactly
those advertisements, with the same prices and limits; the probe is a pure
optimization. -/
theorem probe_agrees_with_full_scan (buyL sellL : List Ad) (thr profitThr : ℚ)
    (probeRows maxPages rows : ℕ) (b s : Ad)
    (hmp : 1 ≤ maxPages) (hr : 1 ≤ rows)
    (hp : fastProbeAds buyL sellL thr profitThr probeRows = some (b, s)) :
    findFirstAd buyL thr maxPages rows = some b ∧
    findFirstAd sellL thr maxPages rows = some s := by
  cases hbt : buyL.take probeRows with
  | nil => simp [fastProbeAds, hbt] at hp
  | cons b0 bt =>
    cases hst : sellL.take probeRows with
    | nil => simp [fastProbeAds, hbt, hst] at hp
    | cons s0 st1 =>
      simp only [fastProbeAds, hbt, hst] at hp
      split_ifs at hp with hc1 hc2
      · simp only [Option.some.injEq, Prod.mk.injEq] at hp
        obtain ⟨hb0, hs0⟩ := hp
        subst hb0
        subst hs0
        have hqb : qualifiesCode b0 thr = true := decide_eq_true hc1.1
        have hqs : qualifiesCode s0 thr = true := decide_eq_true hc1.2.1
        obtain ⟨bl2, rfl⟩ : ∃ tail, buyL = b0 :: tail := by
          cases buyL with
          | nil => simp at hbt
          | cons x xs =>
            cases probeRows with
            | zero => simp at hbt
            | succ n =>
              simp only [List.take_succ_cons, List.cons.injEq] at hbt
              exact ⟨xs, by rw [hbt.1]⟩
        obtain ⟨sl2, rfl⟩ : ∃ tail, sellL = s0 :: tail := by
          cases sellL with
          | nil => simp at hst
          | cons x xs =>
            cases probeRows with
            | zero => simp at hst
            | succ n =>
              simp only [List.take_succ_cons, List.cons.injEq] at hst
              exact ⟨xs, by rw [hst.1]⟩
        exact ⟨findFirstAd_head b0 bl2 thr maxPages rows hmp hr hqb,
          findFirstAd_head s0 sl2 thr maxPages rows hmp hr hqs⟩

/-- Witness for claim C8 at a concrete input. -/
theorem probe_agrees_witness :
    findFirstAd [adBuyC8] 100 8 20 = some adBuyC8 ∧
    findFirstAd [adSellC8] 100 8 20 = some adSellC8 :=
  probe_agrees_with_full_scan [adBuyC8] [adSellC8] 100 3 1 8 20 adBuyC8 adSellC8
    (by decide) (by decide) (by norm_num [fastProbeAds, adBuyC8, adSellC8])

/-- Claim C9: when the SELL side advertisement price, the divisor of the
spread computation, is zero (or missing, which safe_float turns into zero),
the evaluation is skipped for the cycle without any dispatch and the pair
state is returned completely unchanged; the ZeroDivisionError is caught, so
no process-level error escapes. -/
theorem zero_divisor_skips_pair (cfg : Config) (st : PairState)
    (buyerAd sellerAd : Ad) (thr : ℚ) (sendOk : Bool) (now : ℚ)
    (h : sellerAd.price = 0) :
    processAds cfg st buyerAd sellerAd thr sendOk now = (st, DispatchOutcome.noAttempt) := by
  simp [processAds, h]

/-- Witness for claim C9 at a concrete input. -/
theorem zero_divisor_skips_pair_witness :
    processAds defaultCfg initState adBuyC9 adSellZero 3 true 0 =
      (initState, DispatchOutcome.noAttempt) :=
  zero_divisor_skips_pair defaultCfg initState adBuyC9 adSellZero 3 true 0 (by decide)

theorem variantSucceeds_true (fetch : String → Option Ad × Option Ad) (v : String)
    (hv : variantSucceeds fetch v = true) :
    ∃ b s, fetch v = (some b, some s) ∧ ¬s.price = 0 := by
  unfold variantSucceeds at hv
  rcases hf : fetch v with ⟨ob, os⟩
  rw [hf] at hv
  cases ob with
  | none => simp at hv
  | some b =>
    cases os with
    | none => simp at hv
    | some s =>
      by_cases hsp : s.price = 0
      · simp [hsp] at hv
      · exact ⟨b, s, rfl, hsp⟩

/-- Claim C10: the variant loop of process_pair examines the alias variants
in listed order and stops at the first variant that yields both a BUY side
and a SELL side advertisement and a computable (nonzero divisor) spread:
the examined variants are exactly the prefix up to and including that
variant, the loop selects it, and the only pair state that can change is
the one keyed by the currency joined with that individual variant string. -/
theorem variant_loop (cfg : Config) (fetch : String → Option Ad × Option Ad)
    (currency : String) (thr : ℚ) (sendOk : Bool) (now : ℚ) :
    ∀ (pre : List String) (v : String) (post : List String) (states : String → PairState),
      (∀ u ∈ pre, variantSucceeds fetch u = false) →
      variantSucceeds fetch v = true →
      (processPairVariants cfg fetch currency thr sendOk now states (pre ++ v :: post)).2.2 =
          some v ∧
      (processPairVariants cfg fetch currency thr sendOk now states (pre ++ v :: post)).2.1 =
          pre ++ [v] ∧
      ∀ k, ¬k = pairKey currency v →
        (processPairVariants cfg fetch currency thr sendOk now states (pre ++ v :: post)).1 k =
          states k := by
  intro pre
  induction pre with
  | nil =>
    intro v post states _ hv
    obtain ⟨b, s, hbs, hsp⟩ := variantSucceeds_true fetch v hv
    refine ⟨?_, ?_, ?_⟩
    · simp [processPairVariants, hbs, hsp]
    · simp [processPairVariants, hbs, hsp]
    · intro k hk
      simp [processPairVariants, hbs, hsp, hk]
  | cons u pre ih =>
    intro v post states hpre hv
    have hu : variantSucceeds fetch u = false := hpre u (List.mem_cons_self u pre)
    have hpre2 : ∀ x ∈ pre, variantSucceeds fetch x = false :=
      fun x hx => hpre x (List.mem_cons_of_mem u hx)
    obtain ⟨r2a, r2b, r2c⟩ := ih v post states hpre2 hv
    unfold variantSucceeds at hu
    rcases hf : fetch u with ⟨ob, os⟩
    rw [hf] at hu
    cases ob with
    | none =>
      refine ⟨?_, ?_, ?_⟩
      · simpa [processPairVariants, hf] using r2a
      · simpa [processPairVariants, hf] using r2b
      · intro k hk
        simpa [processPairVariants, hf] using r2c k hk
    | some b =>
      cases os with
      | none =>
        refine ⟨?_, ?_, ?_⟩
        · simpa [processPairVariants, hf] using r2a
        · simpa [processPairVariants, hf] using r2b
        · intro k hk
          simpa [processPairVariants, hf] using r2c k hk
      | some s =>
        have hsp : s.price = 0 := by
          by_cases hsp : s.price = 0
          · exact hsp
          · simp [hsp] at hu
        refine ⟨?_, ?_, ?_⟩
        · simpa [processPairVariants, hf, hsp] using r2a
        · simpa [processPairVariants, hf, hsp] using r2b
        · intro k hk
          simpa [processPairVariants, hf, hsp] using r2c k hk

/-- Witness for claim C10 at a concrete input: the first variant yields no
advertisements, the second succeeds, the third is never examined. -/
theorem variant_loop_witness :
    (processPairVariants defaultCfg fetchC10 "USD" 3 true 0 (fun _ => initState)
        ["SkrillMoneybookers", "Skrill", "Skrill (Moneybookers)"]).2.2 = some "Skrill" ∧
    (processPairVariants defaultCfg fetchC10 "USD" 3 true 0 (fun _ => initState)
        ["SkrillMoneybookers", "Skrill", "Skrill (Moneybookers)"]).2.1 =
      ["SkrillMoneybookers", "Skrill"] :=
  ⟨(variant_loop defaultCfg fetchC10 "USD" 3 true 0 ["SkrillMoneybookers"] "Skrill"
      ["Skrill (Moneybookers)"] (fun _ => initState) (by decide) (by decide)).1,
    (variant_loop defaultCfg fetchC10 "USD" 3 true 0 ["SkrillMoneybookers"] "Skrill"
      ["Skrill (Moneybookers)"] (fun _ => initState) (by decide) (by decide)).2.1⟩

end P2P
